import Mathlib

/-!
Verification of the KA3005P serial protocol engine
(`src/pyka3005p/ka3005pserial.py`) against its specification.

The Python class `KA3005PSerial` is shallowly embedded below:
pure helpers become Lean functions, the retry loops become fuel-indexed
recursions on explicit state, byte values become `Nat`, Python floats
become `ℚ`, and fallible parses become `Option`.
-/

namespace KA3005P

/-! ## Status decoding

`_getLimitMode` (lines 239-249) decodes the single status byte:
bit 0x40 clear means `NONE`; otherwise bit 0x01 selects between
`CURRENT` and `VOLTAGE`.  `_setChannelEnable` (line 158) reads the
output-enabled flag from bit 0x40 of the same byte. -/

/-- The `powersupply.PowerSupplyLimit` enumeration used by the source
(imported there from the `labdevices` package). -/
inductive PowerSupplyLimit where
  | NONE
  | CURRENT
  | VOLTAGE
deriving DecidableEq

/-- Embedding of `_getLimitMode` applied to the decoded status byte
(the `ord(repl)` value): lines 243-249 of the source. -/
def getLimitMode (b : Nat) : PowerSupplyLimit :=
  if b &&& 0x40 = 0 then PowerSupplyLimit.NONE
  else if b &&& 0x01 = 0 then PowerSupplyLimit.CURRENT
  else PowerSupplyLimit.VOLTAGE

/-- The output-enabled test `ord(repl) & 0x40 != 0` used by
`_setChannelEnable` (line 158) on the status byte. -/
def statusOutputEnabled (b : Nat) : Bool :=
  b &&& 0x40 != 0

/-! ## Session teardown

`__close` (lines 67-72): only when `self._port` is not `None` AND
`self._portName` is not `None` (i.e. the session opened the port from a
port name itself) does it call `self._off()` and `self._port.close()`.
When the caller supplied an already-open `serial.Serial`, `_portName`
is `None` (line 36) and `__close` performs no action at all. -/

/-- The part of the session state `__close` inspects: whether
`self._port` is currently non-`None`, and whether `self._portName` is
non-`None` (the session was constructed from a port name and opens the
transport itself). -/
structure SessionState where
  portOpen : Bool
  selfOpened : Bool
deriving DecidableEq

/-- Observable teardown actions of `__close`: `self._off()` (force
output off) and `self._port.close()`. -/
inductive TeardownAction where
  | forceOutputOff
  | closeTransport
deriving DecidableEq

/-- Embedding of `__close` (lines 67-72): the list of actions performed,
in order, and the state afterwards (`self._port = None` on the closing
path). -/
def closeSession (s : SessionState) : List TeardownAction × SessionState :=
  if s.portOpen && s.selfOpened then
    ([TeardownAction.forceOutputOff, TeardownAction.closeTransport],
      { s with portOpen := false })
  else
    ([], s)

/-! ## Identity parsing

`_idn` (lines 122-144): reject unless the reply is exactly 30
characters and starts with the 13-character model string; then
`ver = repl[15:18]` and `sn = repl[22:]`. -/

/-- The expected model string `"KORAD KA3005P"` (13 characters). -/
def idnModel : List Char := "KORAD KA3005P".toList

/-- Python slice `s[a:b]` (for `0 ≤ a ≤ b`): characters `[a, b)`. -/
def pySlice (a b : Nat) (s : List Char) : List Char :=
  (s.drop a).take (b - a)

/-- Embedding of the validation and extraction part of `_idn`
(lines 125-131): `none` models the `IOError("Unknown IDN response ...")`
raise; on success the pair is `(version, serial)` with
`ver = repl[15:18]` and `sn = repl[22:]`. -/
def idnParse (repl : List Char) : Option (List Char × List Char) :=
  if repl.length ≠ 30 then none
  else if repl.take 13 ≠ idnModel then none
  else some ((repl.drop 15).take 3, repl.drop 22)

/-! ## Reply reader

`_sendCommandReply` (lines 82-118): write the command once, then read
one byte at a time.  An empty read (byte timeout) on a negative
`replyLen` ends the reply; otherwise, while the retry counter is
positive it is decremented and the read is retried, and once it is
zero `IOError("Serial port timeout")` is raised.  A NUL byte ends the
reply (excluded); otherwise the byte is appended and a reply of
exactly `replyLen` characters ends the reply.

The transport is modelled as `port : Nat → Option Nat`: the value the
i-th `self._port.read(1)` yields (`none` = timeout, `some b` = byte
`b`).  Every call site in the source passes `replyLen` explicitly
(`-1`, `1` or `5`), so it is modelled as `Int`.  The retry counter is
the `timeoutRetry` configuration value, a `Nat`.  The loop is
fuel-indexed because the source loop need not terminate in general. -/

/-- Result of the `_sendCommandReply` read loop: the assembled reply
with the total number of attempted byte reads, the
`IOError("Serial port timeout")` raise with the number of attempted
byte reads, or fuel exhaustion (the source loop still running). -/
inductive ReplyOutcome where
  | assembled (reply : List Nat) (reads : Nat)
  | timeoutError (reads : Nat)
  | outOfFuel
deriving DecidableEq

/-- The read loop of `_sendCommandReply` (lines 91-111).  `retries` is
the current retry counter, `res` the accumulated bytes, `reads` the
number of byte reads attempted so far. -/
def sendReplyLoop (port : Nat → Option Nat) (replyLen : Int) :
    Nat → Nat → List Nat → Nat → ReplyOutcome
  | 0, _, _, _ => ReplyOutcome.outOfFuel
  | fuel + 1, retries, res, reads =>
    match port reads with
    | none =>
      if replyLen < 0 then ReplyOutcome.assembled res (reads + 1)
      else if retries > 0 then
        sendReplyLoop port replyLen fuel (retries - 1) res (reads + 1)
      else ReplyOutcome.timeoutError (reads + 1)
    | some c =>
      if c = 0 then ReplyOutcome.assembled res (reads + 1)
      else
        let res2 := res ++ [c]
        if (res2.length : Int) = replyLen then
          ReplyOutcome.assembled res2 (reads + 1)
        else sendReplyLoop port replyLen fuel retries res2 (reads + 1)

/-- Embedding of `_sendCommandReply` (lines 82-118): the command is
written once (the `List String` component is the write trace), then
the read loop runs with the configured `timeoutRetry` budget. -/
def sendCommandReply (cmd : String) (port : Nat → Option Nat)
    (replyLen : Int) (timeoutRetry fuel : Nat) :
    List String × ReplyOutcome :=
  ([cmd], sendReplyLoop port replyLen fuel timeoutRetry [] 0)

/-! ## Numeric command formatting

`_setVoltage` formats its set command with Python `"{:05.2f}"` and
`_setCurrent` with `"{:05.3f}"`: fixed `prec` decimals, left-padded
with zeros to a minimum width of 5 characters.  The model below covers
the nonnegative values the device accepts; it rounds half up where
Python rounds the underlying binary double, which agrees on every
value exactly representable at the given precision (in particular on
the value 0 used at session start). -/

/-- Left-pad a string with zeros to width `w` (Python `0`-fill). -/
def padZeros (w : Nat) (s : String) : String :=
  String.mk (List.replicate (w - s.length) '0') ++ s

/-- Python `"{:05.prec f}"` for a nonnegative rational. -/
def pyFormatFixed (prec : Nat) (q : ℚ) : String :=
  let n : Nat := (⌊q * (10 : ℚ) ^ prec + 1 / 2⌋).toNat
  let ip := n / 10 ^ prec
  let fp := n % 10 ^ prec
  padZeros 5 (toString ip ++ "." ++ padZeros prec (toString fp))

/-! ## Readback-verified setters

`_setVoltage` (lines 170-193) and `_setCurrent` (lines 195-219): in a
`while True` loop, send the set command, query the set-point back,
parse it as a float (`ValueError` becomes the sentinel `None`), accept
when `abs(read - intended) < 1e-2`; on mismatch, only when the retry
counter is positive, decrement it and raise
`IOError("Failed to read back ...")` when it hits zero.

The per-attempt parse result of the readback query is modelled as
`readback : Nat → Option ℚ` (`none` = `float(...)` raised
`ValueError`).  Note that on `none` the source computes
`abs(None - voltage)`, which raises an uncaught `TypeError`: that path
is the `typeErrorCrash` outcome below. -/

/-- Outcome of a set+verify loop: success after `attempts` set+verify
attempts, the `IOError("Failed to read back ...")` raise after
`attempts` attempts, the uncaught `TypeError` from `abs(None - x)`
on a parse failure, or fuel exhaustion (loop still running). -/
inductive SetOutcome where
  | success (attempts : Nat)
  | readbackMismatch (attempts : Nat)
  | typeErrorCrash (attempts : Nat)
  | outOfFuel
deriving DecidableEq

/-- The `_setVoltage` loop (lines 173-193).  Returns the list of
commands written, in order, and the outcome.  `attempt` counts
completed set+verify attempts so far. -/
def setVoltageLoop (voltage : ℚ) (channel : Nat) (readback : Nat → Option ℚ) :
    Nat → Nat → Nat → List String × SetOutcome
  | 0, _, _ => ([], SetOutcome.outOfFuel)
  | fuel + 1, retries, attempt =>
    let cmds := ["VSET" ++ toString channel ++ ":" ++ pyFormatFixed 2 voltage,
                 "VSET" ++ toString channel ++ "?"]
    match readback attempt with
    | none => (cmds, SetOutcome.typeErrorCrash (attempt + 1))
    | some rv =>
      if |rv - voltage| < 1 / 100 then (cmds, SetOutcome.success (attempt + 1))
      else if retries > 0 then
        if retries - 1 = 0 then (cmds, SetOutcome.readbackMismatch (attempt + 1))
        else
          let next := setVoltageLoop voltage channel readback fuel (retries - 1) (attempt + 1)
          (cmds ++ next.1, next.2)
      else
        let next := setVoltageLoop voltage channel readback fuel retries (attempt + 1)
        (cmds ++ next.1, next.2)

/-- The `_setCurrent` loop (lines 198-219), identical in shape to
`_setVoltage` but with 3-decimal formatting and `ISET` commands
(`float(repl[:5])` is again modelled by the per-attempt `readback`
parse result). -/
def setCurrentLoop (current : ℚ) (channel : Nat) (readback : Nat → Option ℚ) :
    Nat → Nat → Nat → List String × SetOutcome
  | 0, _, _ => ([], SetOutcome.outOfFuel)
  | fuel + 1, retries, attempt =>
    let cmds := ["ISET" ++ toString channel ++ ":" ++ pyFormatFixed 3 current,
                 "ISET" ++ toString channel ++ "?"]
    match readback attempt with
    | none => (cmds, SetOutcome.typeErrorCrash (attempt + 1))
    | some rv =>
      if |rv - current| < 1 / 100 then (cmds, SetOutcome.success (attempt + 1))
      else if retries > 0 then
        if retries - 1 = 0 then (cmds, SetOutcome.readbackMismatch (attempt + 1))
        else
          let next := setCurrentLoop current channel readback fuel (retries - 1) (attempt + 1)
          (cmds ++ next.1, next.2)
      else
        let next := setCurrentLoop current channel readback fuel retries (attempt + 1)
        (cmds ++ next.1, next.2)

/-- The `_setChannelEnable` loop (lines 150-167).  `status attempt` is
the status byte read back on the given attempt.  The success test is
line 158: bit 0x40 clear and disabling requested, or bit 0x40 set and
enabling requested.  On failure the source decrements the counter,
raises when it reaches zero, and then decrements it AGAIN
(lines 163-167). -/
def setChannelEnableLoop (enable : Bool) (status : Nat → Nat) :
    Nat → Nat → Nat → List String × SetOutcome
  | 0, _, _ => ([], SetOutcome.outOfFuel)
  | fuel + 1, retries, attempt =>
    let cmds := [if enable then "OUT1" else "OUT0", "STATUS?"]
    let st := status attempt
    if (st &&& 0x40 = 0 ∧ enable = false) ∨ (st &&& 0x40 ≠ 0 ∧ enable = true) then
      (cmds, SetOutcome.success (attempt + 1))
    else if retries > 0 then
      if retries - 1 = 0 then (cmds, SetOutcome.readbackMismatch (attempt + 1))
      else
        let next := setChannelEnableLoop enable status fuel (retries - 1 - 1) (attempt + 1)
        (cmds ++ next.1, next.2)
    else
      let next := setChannelEnableLoop enable status fuel retries (attempt + 1)
      (cmds ++ next.1, next.2)

/-! ## Session open sequence

`__initialRequests` (lines 44-52): identity query (raising on an
unrecognized reply), then `OUT0`, `OCP0`, `OVP0`, then
`_setVoltage(0, 1)` and `_setCurrent(0, 1)`.  `__enter__`
(lines 56-61) runs it before returning the session to the caller, so
these commands precede any externally requested operation.

`idnReply` is the reply the reader assembled for `*IDN?`; `vread` and
`iread` are the per-attempt readback parse results of the two
set+verify exchanges; `r` is the configured `readbackRetry`. -/

/-- Outcome of `__initialRequests`. -/
inductive InitOutcome where
  | ok
  | badIdn
  | vFail (o : SetOutcome)
  | iFail (o : SetOutcome)
deriving DecidableEq

/-- Embedding of `__initialRequests` (lines 44-52): the commands
written to the device, in order, and the outcome.  A raise inside any
step stops the sequence at that step. -/
def initialRequests (idnReply : List Char) (vread iread : Nat → Option ℚ)
    (fuel r : Nat) : List String × InitOutcome :=
  match idnParse idnReply with
  | none => (["*IDN?"], InitOutcome.badIdn)
  | some _ =>
    let base := ["*IDN?", "OUT0", "OCP0", "OVP0"]
    let v := setVoltageLoop 0 1 vread fuel r 0
    match v.2 with
    | SetOutcome.success _ =>
      let i := setCurrentLoop 0 1 iread fuel r 0
      match i.2 with
      | SetOutcome.success _ => (base ++ v.1 ++ i.1, InitOutcome.ok)
      | o => (base ++ v.1 ++ i.1, InitOutcome.iFail o)
    | o => (base ++ v.1, InitOutcome.vFail o)

/-! ## Helper lemmas -/

/-- `"{:05.2f}"` applied to 0 yields `"00.00"` (the `VSET1:00.00`
payload of the session-open sequence). -/
theorem pyFormatFixed_two_zero : pyFormatFixed 2 0 = "00.00" := by
  have h : (⌊(0 : ℚ) * (10 : ℚ) ^ 2 + 1 / 2⌋) = 0 := by norm_num
  simp only [pyFormatFixed, h]
  rfl

/-- `"{:05.3f}"` applied to 0 yields `"0.000"` (the `ISET1:0.000`
payload of the session-open sequence). -/
theorem pyFormatFixed_three_zero : pyFormatFixed 3 0 = "0.000" := by
  have h : (⌊(0 : ℚ) * (10 : ℚ) ^ 3 + 1 / 2⌋) = 0 := by norm_num
  simp only [pyFormatFixed, h]
  rfl

/-! ## C1: session teardown -/

/-- C1, counterexample.  With a caller-supplied, already-open transport
(`self._port` set, `self._portName = None`) the teardown performs NO
action at all: in particular it does not force output off, refuting
the claim that output is forced off in both cases. -/
theorem closeSession_caller_supplied_no_forceOff :
    (closeSession ⟨true, false⟩).1 = [] ∧
      TeardownAction.forceOutputOff ∉ (closeSession ⟨true, false⟩).1 := by
  decide

/-- C1, amended.  On teardown, only when the session opened the
transport itself (port open and a port name recorded) does it force
output off and then close the transport, in that order, clearing the
port; with a caller-supplied transport, or an already-released port,
it performs no teardown action (neither forces output off nor
closes). -/
theorem closeSession_teardown (s : SessionState) :
    (s.portOpen = true → s.selfOpened = true →
        closeSession s = ([TeardownAction.forceOutputOff, TeardownAction.closeTransport],
          { s with portOpen := false })) ∧
    (s.selfOpened = false → closeSession s = ([], s)) ∧
    (s.portOpen = false → closeSession s = ([], s)) := by
  obtain ⟨p, o⟩ := s
  cases p <;> cases o <;> simp [closeSession]

/-- C1, witness: a self-opened session forces output off and then
closes; a caller-supplied one is left untouched. -/
theorem closeSession_teardown_witness :
    closeSession ⟨true, true⟩ = ([TeardownAction.forceOutputOff, TeardownAction.closeTransport],
        ⟨false, true⟩) ∧
      closeSession ⟨true, false⟩ = ([], ⟨true, false⟩) :=
  ⟨(closeSession_teardown ⟨true, true⟩).1 rfl rfl,
   (closeSession_teardown ⟨true, false⟩).2.1 rfl⟩

/-! ## C2: readback parse failure -/

/-- C2, failing input.  When the first readback query of `_setVoltage`
or `_setCurrent` cannot be parsed as a float (`readback 0 = none`),
the operation neither retries nor fails with a typed error: it crashes
on the first attempt with the uncaught `TypeError` raised by
`abs(None - value)`, refuting the claim that a parse failure is
treated as a non-matching read and retried. -/
theorem setVoltage_setCurrent_parse_failure_crashes :
    (setVoltageLoop 1 1 (fun _ => none) 10 3 0).2 = SetOutcome.typeErrorCrash 1 ∧
      (setCurrentLoop 1 1 (fun _ => none) 10 3 0).2 = SetOutcome.typeErrorCrash 1 :=
  ⟨rfl, rfl⟩

/-! ## C3 and C4: status decoding -/

/-- C3, counterexample.  Decoding the status byte `0x40` yields
`CURRENT` (current-limiting), not `NONE` as claimed: bit `0x40` is
set, so `_getLimitMode` inspects bit `0x01`, which is clear. -/
theorem getLimitMode_x40_not_NONE :
    getLimitMode 0x40 = PowerSupplyLimit.CURRENT ∧
      getLimitMode 0x40 ≠ PowerSupplyLimit.NONE := by
  decide

/-- C3, amended.  Decoding `0x40` yields output enabled and
`CURRENT` (current-limiting); decoding `0x41` yields output enabled
and `VOLTAGE`; decoding `0x00` yields output disabled and `NONE`. -/
theorem decode_status_concrete :
    statusOutputEnabled 0x40 = true ∧ getLimitMode 0x40 = PowerSupplyLimit.CURRENT ∧
    statusOutputEnabled 0x41 = true ∧ getLimitMode 0x41 = PowerSupplyLimit.VOLTAGE ∧
    statusOutputEnabled 0x00 = false ∧ getLimitMode 0x00 = PowerSupplyLimit.NONE := by
  decide

/-- C4.  For every status byte, bit `0x40` is the output-enabled flag;
when it is set, bit `0x01` clear decodes to current limiting and set
to voltage limiting; when bit `0x40` is clear the limit mode is `NONE`
regardless of bit `0x01`. -/
theorem decode_status_bits (b : Nat) :
    (statusOutputEnabled b = true ↔ b &&& 0x40 ≠ 0) ∧
    (b &&& 0x40 ≠ 0 →
      (b &&& 0x01 = 0 → getLimitMode b = PowerSupplyLimit.CURRENT) ∧
      (b &&& 0x01 ≠ 0 → getLimitMode b = PowerSupplyLimit.VOLTAGE)) ∧
    (b &&& 0x40 = 0 → getLimitMode b = PowerSupplyLimit.NONE) := by
  refine ⟨by simp [statusOutputEnabled], fun h40 => ⟨fun h1 => ?_, fun h1 => ?_⟩, fun h40 => ?_⟩
  · simp [getLimitMode, h40, h1]
  · rw [Nat.and_one_is_mod] at h1
    simp [getLimitMode, h40]
    omega
  · simp [getLimitMode, h40]

/-- C4, witness at the bytes 0x41 (enabled, voltage limiting) and
0x02 (disabled). -/
theorem decode_status_bits_witness :
    (statusOutputEnabled 0x41 = true ↔ 0x41 &&& 0x40 ≠ 0) ∧
      getLimitMode 0x41 = PowerSupplyLimit.VOLTAGE ∧
      getLimitMode 0x02 = PowerSupplyLimit.NONE :=
  ⟨(decode_status_bits 0x41).1,
   ((decode_status_bits 0x41).2.1 (by decide)).2 (by decide),
   (decode_status_bits 0x02).2.2 (by decide)⟩

/-! ## C5: reply reader against a dead transport -/

/-- Read-loop helper: against a transport whose every read times out,
with a non-negative expected length, the loop raises the timeout error
after exactly `retries + 1` further attempted byte reads. -/
theorem sendReplyLoop_all_timeout (port : Nat → Option Nat) (L : Int)
    (hp : ∀ i, port i = none) (hL : 0 ≤ L) :
    ∀ r fuel res reads, r + 1 ≤ fuel →
      sendReplyLoop port L fuel r res reads = ReplyOutcome.timeoutError (reads + r + 1) := by
  intro r
  induction r with
  | zero =>
    intro fuel res reads hf
    cases fuel with
    | zero => omega
    | succ f =>
      rw [sendReplyLoop]
      simp [hp reads, not_lt.mpr hL]
  | succ k ih =>
    intro fuel res reads hf
    cases fuel with
    | zero => omega
    | succ f =>
      rw [sendReplyLoop]
      simp only [hp reads, not_lt.mpr hL, if_false, Nat.succ_sub_one,
        Nat.succ_pos, if_pos, if_neg]
      rw [ih f res (reads + 1) (by omega)]
      congr 1
      omega

/-- C5.  For every command, fixed non-negative expected reply length
and timeout-retry budget `r`, against a transport that yields no byte
on any read, `_sendCommandReply` writes the command exactly once and
raises `IOError("Serial port timeout")` after exactly `r + 1`
attempted byte reads (given enough fuel to reach the raise). -/
theorem sendCommandReply_dead_transport (cmd : String) (port : Nat → Option Nat)
    (L : Int) (r fuel : Nat)
    (hp : ∀ i, port i = none) (hL : 0 ≤ L) (hf : r + 1 ≤ fuel) :
    sendCommandReply cmd port L r fuel = ([cmd], ReplyOutcome.timeoutError (r + 1)) := by
  unfold sendCommandReply
  rw [sendReplyLoop_all_timeout port L hp hL r fuel [] 0 hf]
  norm_num

/-- C5, witness: `STATUS?` with expected length 1 and the default
budget of 3 fails with the timeout error after exactly 4 byte
reads, the command having been written once. -/
theorem sendCommandReply_dead_transport_witness :
    sendCommandReply "STATUS?" (fun _ => none) 1 3 4
      = (["STATUS?"], ReplyOutcome.timeoutError 4) :=
  sendCommandReply_dead_transport "STATUS?" (fun _ => none) 1 3 4
    (fun _ => rfl) (by decide) (by decide)

/-! ## C6: voltage readback mismatch exhausts the budget -/

/-- Set+verify helper: when every readback attempt parses to a value at
least 0.01 away from the intended voltage, the loop starting at any
attempt counter with a positive retry budget `r` raises the readback
error after exactly `r` further set+verify attempts. -/
theorem setVoltageLoop_always_mismatch (v : ℚ) (ch : Nat) (rb : Nat → Option ℚ)
    (hrb : ∀ i, ∃ q, rb i = some q ∧ 1 / 100 ≤ |q - v|) :
    ∀ r, 1 ≤ r → ∀ fuel attempt, r ≤ fuel →
      (setVoltageLoop v ch rb fuel r attempt).2
        = SetOutcome.readbackMismatch (attempt + r) := by
  intro r
  induction r with
  | zero => omega
  | succ k ih =>
    intro _ fuel attempt hf
    cases fuel with
    | zero => omega
    | succ f =>
      obtain ⟨q, hq, hge⟩ := hrb attempt
      rw [setVoltageLoop]
      simp only [hq, not_lt.mpr hge, if_false, Nat.succ_pos, if_pos, Nat.succ_sub_one]
      cases Nat.eq_zero_or_pos k with
      | inl h0 => subst h0; simp
      | inr hk =>
        rw [if_neg (by omega : ¬ k = 0)]
        have hkk := ih hk f (attempt + 1) (by omega)
        simp only [hkk]
        congr 1
        omega

/-- C6.  For every intended voltage and readback retry budget
`r ≥ 1`, if every readback query parses to a value differing from the
intended one by at least 0.01, `_setVoltage` raises
`IOError("Failed to read back set voltage")` after exactly `r`
set+verify attempts (given enough fuel to reach the raise). -/
theorem setVoltage_mismatch_exhausts_budget (v : ℚ) (ch : Nat)
    (rb : Nat → Option ℚ) (r fuel : Nat)
    (hrb : ∀ i, ∃ q, rb i = some q ∧ 1 / 100 ≤ |q - v|)
    (hr : 1 ≤ r) (hf : r ≤ fuel) :
    (setVoltageLoop v ch rb fuel r 0).2 = SetOutcome.readbackMismatch r := by
  have h := setVoltageLoop_always_mismatch v ch rb hrb r hr fuel 0 hf
  simpa using h

/-- C6, witness: intended voltage 0 with every readback parsing to 1
and the default budget of 3 fails with the readback error after
exactly 3 attempts. -/
theorem setVoltage_mismatch_exhausts_budget_witness :
    (setVoltageLoop 0 1 (fun _ => some 1) 3 3 0).2 = SetOutcome.readbackMismatch 3 :=
  setVoltage_mismatch_exhausts_budget 0 1 (fun _ => some 1) 3 3
    (fun _ => ⟨1, rfl, by norm_num⟩) (by decide) (by decide)

/-! ## C7: output-enable retry budget is decremented twice -/

/-- C7, failing input.  Requesting output enable with a readback retry
budget of 3 against a device whose status byte stays `0x00` raises
`IOError("Failed to set output status ...")` after only 2 failed
set+verify attempts: lines 163-167 decrement the counter, test it for
zero, and then decrement it again, so each failed attempt consumes two
units of budget, not one as the claim states. -/
theorem setChannelEnable_budget3_fails_after_2_attempts :
    (setChannelEnableLoop true (fun _ => 0) 5 3 0).2 = SetOutcome.readbackMismatch 2 ∧
      (setChannelEnableLoop true (fun _ => 0) 5 3 0).2 ≠ SetOutcome.readbackMismatch 3 := by
  constructor
  · rfl
  · decide

/-! ## C8: identity reply validation and extraction -/

/-- C8.  `_idn` rejects a reply exactly when it is not 30 characters
long or its first 13 characters differ from the expected model string;
every accepted reply yields version = characters [15,18) and serial
number = characters [22,30). -/
theorem idnParse_spec (s : List Char) :
    (idnParse s = none ↔ s.length ≠ 30 ∨ s.take 13 ≠ idnModel) ∧
    (s.length = 30 → s.take 13 = idnModel →
      idnParse s = some (pySlice 15 18 s, pySlice 22 30 s)) := by
  constructor
  · by_cases h30 : s.length = 30
    · by_cases hm : s.take 13 = idnModel
      · simp [idnParse, h30, hm]
      · simp [idnParse, h30, hm]
    · simp [idnParse, h30]
  · intro h30 hm
    simp [idnParse, h30, hm, pySlice]

/-- C8, witness: the well-formed reply
`"KORAD KA3005P V5.5 SN:00123456"` is accepted, with version `"5.5"`
and serial number `"00123456"`. -/
theorem idnParse_spec_witness :
    idnParse "KORAD KA3005P V5.5 SN:00123456".toList
      = some ("5.5".toList, "00123456".toList) := by
  have h := (idnParse_spec "KORAD KA3005P V5.5 SN:00123456".toList).2
    (by decide) (by decide)
  rw [h]
  decide

/-! ## C9: session open sequence -/

/-- Every command the `_setVoltage` loop writes is either its set
command or its query command. -/
theorem setVoltageLoop_cmds (v : ℚ) (ch : Nat) (rb : Nat → Option ℚ) :
    ∀ fuel retries attempt c, c ∈ (setVoltageLoop v ch rb fuel retries attempt).1 →
      c = "VSET" ++ toString ch ++ ":" ++ pyFormatFixed 2 v ∨
        c = "VSET" ++ toString ch ++ "?" := by
  intro fuel
  induction fuel with
  | zero => intro _ _ c hc; simp [setVoltageLoop] at hc
  | succ f ih =>
    intro retries attempt c hc
    rw [setVoltageLoop] at hc
    cases hrb : rb attempt with
    | none =>
      simp only [hrb] at hc
      simpa using hc
    | some q =>
      simp only [hrb] at hc
      split at hc
      · simpa using hc
      · split at hc
        · split at hc
          · simpa using hc
          · simp only [List.cons_append, List.nil_append, List.mem_cons] at hc
            rcases hc with hc | hc | hc
            · exact Or.inl hc
            · exact Or.inr hc
            · exact ih _ _ c hc
        · simp only [List.cons_append, List.nil_append, List.mem_cons] at hc
          rcases hc with hc | hc | hc
          · exact Or.inl hc
          · exact Or.inr hc
          · exact ih _ _ c hc

/-- Every command the `_setCurrent` loop writes is either its set
command or its query command. -/
theorem setCurrentLoop_cmds (v : ℚ) (ch : Nat) (rb : Nat → Option ℚ) :
    ∀ fuel retries attempt c, c ∈ (setCurrentLoop v ch rb fuel retries attempt).1 →
      c = "ISET" ++ toString ch ++ ":" ++ pyFormatFixed 3 v ∨
        c = "ISET" ++ toString ch ++ "?" := by
  intro fuel
  induction fuel with
  | zero => intro _ _ c hc; simp [setCurrentLoop] at hc
  | succ f ih =>
    intro retries attempt c hc
    rw [setCurrentLoop] at hc
    cases hrb : rb attempt with
    | none =>
      simp only [hrb] at hc
      simpa using hc
    | some q =>
      simp only [hrb] at hc
      split at hc
      · simpa using hc
      · split at hc
        · split at hc
          · simpa using hc
          · simp only [List.cons_append, List.nil_append, List.mem_cons] at hc
            rcases hc with hc | hc | hc
            · exact Or.inl hc
            · exact Or.inr hc
            · exact ih _ _ c hc
        · simp only [List.cons_append, List.nil_append, List.mem_cons] at hc
          rcases hc with hc | hc | hc
          · exact Or.inl hc
          · exact Or.inr hc
          · exact ih _ _ c hc

/-- Setting voltage 0 with a device that echoes 0 succeeds on the
first set+verify attempt, writing `VSET1:00.00` then `VSET1?`. -/
theorem setVoltageLoop_zero_first :
    setVoltageLoop 0 1 (fun _ => some 0) 1 3 0
      = (["VSET1:00.00", "VSET1?"], SetOutcome.success 1) := by
  rw [setVoltageLoop]
  simp only []
  rw [if_pos (by norm_num : |(0 : ℚ) - 0| < 1 / 100)]
  rw [pyFormatFixed_two_zero]
  rfl

/-- Setting current 0 with a device that echoes 0 succeeds on the
first set+verify attempt, writing `ISET1:0.000` then `ISET1?`. -/
theorem setCurrentLoop_zero_first :
    setCurrentLoop 0 1 (fun _ => some 0) 1 3 0
      = (["ISET1:0.000", "ISET1?"], SetOutcome.success 1) := by
  rw [setCurrentLoop]
  simp only []
  rw [if_pos (by norm_num : |(0 : ℚ) - 0| < 1 / 100)]
  rw [pyFormatFixed_three_zero]
  rfl

/-- C9.  On every successful session open, the commands issued to the
device are, in order: the identity query, `OUT0`, `OCP0`, `OVP0`, the
voltage=0 set+verify exchange, then the current=0 set+verify exchange
(the voltage exchange consists solely of `VSET1:00.00` / `VSET1?`
commands and the current exchange solely of `ISET1:0.000` / `ISET1?`
commands).  `__enter__` runs this sequence before returning the
session, hence before any externally requested operation. -/
theorem initialRequests_order (idnReply : List Char) (vread iread : Nat → Option ℚ)
    (fuel r : Nat) (ident : List Char × List Char) (a b : Nat) (vtr itr : List String)
    (hidn : idnParse idnReply = some ident)
    (hv : setVoltageLoop 0 1 vread fuel r 0 = (vtr, SetOutcome.success a))
    (hi : setCurrentLoop 0 1 iread fuel r 0 = (itr, SetOutcome.success b)) :
    initialRequests idnReply vread iread fuel r
        = ("*IDN?" :: "OUT0" :: "OCP0" :: "OVP0" :: (vtr ++ itr), InitOutcome.ok) ∧
      (∀ c ∈ vtr, c = "VSET1:00.00" ∨ c = "VSET1?") ∧
      (∀ c ∈ itr, c = "ISET1:0.000" ∨ c = "ISET1?") := by
  refine ⟨?_, ?_, ?_⟩
  · simp [initialRequests, hidn, hv, hi]
  · intro c hc
    have hmem : c ∈ (setVoltageLoop 0 1 vread fuel r 0).1 := by rw [hv]; exact hc
    rcases setVoltageLoop_cmds 0 1 vread fuel r 0 c hmem with h | h
    · left; rw [h, pyFormatFixed_two_zero]; rfl
    · right; rw [h]; rfl
  · intro c hc
    have hmem : c ∈ (setCurrentLoop 0 1 iread fuel r 0).1 := by rw [hi]; exact hc
    rcases setCurrentLoop_cmds 0 1 iread fuel r 0 c hmem with h | h
    · left; rw [h, pyFormatFixed_three_zero]; rfl
    · right; rw [h]; rfl

/-- C9, witness: with a recognized identity reply and a device that
echoes both zero set-points, session open issues exactly
`*IDN?`, `OUT0`, `OCP0`, `OVP0`, `VSET1:00.00`, `VSET1?`,
`ISET1:0.000`, `ISET1?`, in that order. -/
theorem initialRequests_order_witness :
    initialRequests "KORAD KA3005P V5.5 SN:00123456".toList
        (fun _ => some 0) (fun _ => some 0) 1 3
      = (["*IDN?", "OUT0", "OCP0", "OVP0", "VSET1:00.00", "VSET1?",
          "ISET1:0.000", "ISET1?"], InitOutcome.ok) := by
  have h := (initialRequests_order "KORAD KA3005P V5.5 SN:00123456".toList
      (fun _ => some 0) (fun _ => some 0) 1 3
      ("5.5".toList, "00123456".toList) 1 1
      ["VSET1:00.00", "VSET1?"] ["ISET1:0.000", "ISET1?"]
      (by decide) setVoltageLoop_zero_first setCurrentLoop_zero_first).1
  simpa using h

/-! ## C10: zero retry budget never terminates -/

/-- With a zero retry budget and every readback mismatching, the
`_setVoltage` loop consumes all fuel without succeeding or raising:
the decrement and the raise are both inside `if retries > 0`. -/
theorem setVoltageLoop_zero_budget (v : ℚ) (ch : Nat) (rb : Nat → Option ℚ)
    (hrb : ∀ i, ∃ q, rb i = some q ∧ ¬(|q - v| < 1 / 100)) :
    ∀ fuel attempt, (setVoltageLoop v ch rb fuel 0 attempt).2 = SetOutcome.outOfFuel := by
  intro fuel
  induction fuel with
  | zero => intro attempt; simp [setVoltageLoop]
  | succ f ih =>
    intro attempt
    obtain ⟨q, hq, hlt⟩ := hrb attempt
    rw [setVoltageLoop]
    simp only [hq, hlt, if_false, lt_irrefl]
    exact ih (attempt + 1)

/-- With a zero retry budget and every readback mismatching, the
`_setCurrent` loop consumes all fuel without succeeding or raising. -/
theorem setCurrentLoop_zero_budget (v : ℚ) (ch : Nat) (rb : Nat → Option ℚ)
    (hrb : ∀ i, ∃ q, rb i = some q ∧ ¬(|q - v| < 1 / 100)) :
    ∀ fuel attempt, (setCurrentLoop v ch rb fuel 0 attempt).2 = SetOutcome.outOfFuel := by
  intro fuel
  induction fuel with
  | zero => intro attempt; simp [setCurrentLoop]
  | succ f ih =>
    intro attempt
    obtain ⟨q, hq, hlt⟩ := hrb attempt
    rw [setCurrentLoop]
    simp only [hq, hlt, if_false, lt_irrefl]
    exact ih (attempt + 1)

/-- With a zero retry budget and a status byte that never reflects the
requested output state, the `_setChannelEnable` loop consumes all fuel
without succeeding or raising. -/
theorem setChannelEnableLoop_zero_budget (en : Bool) (st : Nat → Nat)
    (hst : ∀ i, ¬((st i &&& 0x40 = 0 ∧ en = false) ∨ (st i &&& 0x40 ≠ 0 ∧ en = true))) :
    ∀ fuel attempt, (setChannelEnableLoop en st fuel 0 attempt).2 = SetOutcome.outOfFuel := by
  intro fuel
  induction fuel with
  | zero => intro attempt; simp [setChannelEnableLoop]
  | succ f ih =>
    intro attempt
    rw [setChannelEnableLoop]
    simp only [hst attempt, if_false, lt_irrefl]
    exact ih (attempt + 1)

/-- C10.  With a configured readback retry budget of 0, `_setVoltage`,
`_setCurrent` and `_setChannelEnable` never raise the readback error
and never terminate when every readback attempt mismatches: for every
amount of fuel the loops are still running (`outOfFuel`), having
neither succeeded nor raised. -/
theorem retry_budget_zero_loops_forever (v c : ℚ) (ch : Nat)
    (vrb crb : Nat → Option ℚ) (st : Nat → Nat) (en : Bool)
    (hv : ∀ i, ∃ q, vrb i = some q ∧ ¬(|q - v| < 1 / 100))
    (hc : ∀ i, ∃ q, crb i = some q ∧ ¬(|q - c| < 1 / 100))
    (hs : ∀ i, ¬((st i &&& 0x40 = 0 ∧ en = false) ∨ (st i &&& 0x40 ≠ 0 ∧ en = true))) :
    ∀ fuel,
      (setVoltageLoop v ch vrb fuel 0 0).2 = SetOutcome.outOfFuel ∧
      (setCurrentLoop c ch crb fuel 0 0).2 = SetOutcome.outOfFuel ∧
      (setChannelEnableLoop en st fuel 0 0).2 = SetOutcome.outOfFuel :=
  fun fuel =>
    ⟨setVoltageLoop_zero_budget v ch vrb hv fuel 0,
     setCurrentLoop_zero_budget c ch crb hc fuel 0,
     setChannelEnableLoop_zero_budget en st hs fuel 0⟩

/-- C10, witness: budget 0, intended values 0 with every readback 1,
output enable requested with the status byte stuck at 0: after 5 fuel
steps all three loops are still running. -/
theorem retry_budget_zero_loops_forever_witness :
    (setVoltageLoop 0 1 (fun _ => some 1) 5 0 0).2 = SetOutcome.outOfFuel ∧
      (setCurrentLoop 0 1 (fun _ => some 1) 5 0 0).2 = SetOutcome.outOfFuel ∧
      (setChannelEnableLoop true (fun _ => 0) 5 0 0).2 = SetOutcome.outOfFuel :=
  retry_budget_zero_loops_forever 0 0 1 (fun _ => some 1) (fun _ => some 1)
    (fun _ => 0) true
    (fun _ => ⟨1, rfl, by norm_num⟩)
    (fun _ => ⟨1, rfl, by norm_num⟩)
    (fun _ => by
      show ¬((0 &&& 0x40 = 0 ∧ true = false) ∨ (0 &&& 0x40 ≠ 0 ∧ true = true))
      decide) 5

end KA3005P
